import Mathlib

/-!
# Verification of the Kanban remote-table store (`app.py`)

Shallow embedding of the synchronization logic of `src/app.py`: the
configuration block that reads the four secrets, `get_empty_df`,
`carregar_dados_github` (GET of the data file), `salvar_dados_github`
(PUT of the data file), the session-data initialization and the save
button handler.

Modelling choices, recorded once here:

* The network is a parameter: each call to a store function takes the
  remote response it observes as an explicit argument (`LoadResponse`,
  `PutResponse`), and the session state mutated by the Python code
  (`st.session_state.github_sha`, `st.session_state.data`) is passed in
  and returned explicitly.
* JSON text and the base64 transport encoding are modelled at the
  structural level: `json.loads` / `DataFrame.to_json` are an external
  inverse pair between valid JSON text and the `Json` value it denotes,
  and `base64.b64encode` / `b64decode` are an external bijection on
  their domain, so remote file content is represented by the parsed
  `Json` value, with explicit constructors (`FileContent.badJson`,
  `FileContent.badEncoding`) for content whose decoding or parsing
  raises in the Python code.  JSON numbers appearing in this data are
  integers (the progress column), modelled as `Int`.
* `st.error` / `st.warning` / `st.success` calls are modelled as a list
  of emitted `Effect`s; the interpolated text of a Python exception is
  modelled by a detail string carried by the response constructor, or a
  fixed constant for exceptions raised inside the function body.
* `pd.DataFrame(records)` is modelled by `dfFromJson` for the shapes the
  data file can hold: an array of JSON objects (columns are the union of
  the keys in order of first appearance, missing cells read back as
  null); any other JSON shape is treated as the constructor raising.
-/

/-- Structural JSON values. -/
inductive Json where
  | null : Json
  | bool : Bool → Json
  | num : Int → Json
  | str : String → Json
  | arr : List Json → Json
  | obj : List (String × Json) → Json
deriving Repr

/-- Python dict lookup `d[key]` on a JSON object, `none` when the key is
missing (a `KeyError` in the source). -/
def lookupField : List (String × Json) → String → Option Json
  | [], _ => none
  | (k, v) :: rest, key => if k = key then some v else lookupField rest key

/-- Model of data[key] where data is an arbitrary JSON value: indexing
a non-object raises in Python, modelled as `none`. -/
def Json.get? : Json → String → Option Json
  | .obj fields, key => lookupField fields key
  | _, _ => none

/-- In-memory `pandas.DataFrame`: ordered column names and rows of cells. -/
structure DataFrame where
  columns : List String
  rows : List (List Json)
deriving Repr

/-- The fixed Kanban schema columns (source line 22). -/
def kanbanColumns : List String :=
  ["Tarefa", "Início", "Previsão", "Progresso (%)", "Colaboradores"]

/-- Model of get_empty_df: empty DataFrame with the Kanban structure. -/
def get_empty_df : DataFrame :=
  { columns := kanbanColumns, rows := [] }

/-- Model of df.to_json(orient="records"): one JSON object per row,
keys are the column names in column order. -/
def dfToJson (df : DataFrame) : Json :=
  Json.arr (df.rows.map (fun cells => Json.obj (df.columns.zip cells)))

/-- A record element of the stored array must be a JSON object. -/
def Json.asObj? : Json → Option (List (String × Json))
  | .obj fields => some fields
  | _ => none

/-- Append a column name if it is not already present. -/
def insertCol (cols : List String) (k : String) : List String :=
  if cols.contains k then cols else cols ++ [k]

/-- Union of column names, preserving order of first appearance. -/
def unionCols (cols : List String) (ks : List String) : List String :=
  ks.foldl insertCol cols

/-- Check that every element of the parsed array is a JSON object,
returning their field lists. -/
def allObjs? : List Json → Option (List (List (String × Json)))
  | [] => some []
  | j :: rest =>
    match j.asObj?, allObjs? rest with
    | some o, some os => some (o :: os)
    | _, _ => none

/-- Model of pd.DataFrame(json.loads(content)) on the parsed value: an
array of objects yields a DataFrame whose columns are the union of the keys in
order of first appearance (missing cells null); any other shape raises,
modelled as `none`. -/
def dfFromJson : Json → Option DataFrame
  | .arr elems =>
    match allObjs? elems with
    | none => none
    | some objs =>
      let cols := objs.foldl (fun acc o => unionCols acc (o.map Prod.fst)) []
      some { columns := cols,
             rows := objs.map (fun o => cols.map (fun c => (lookupField o c).getD Json.null)) }
  | _ => none

/-- A message displayed to the user via `st.error`, `st.warning` or
`st.success`. -/
inductive Effect where
  | errorMsg : String → Effect
  | warningMsg : String → Effect
  | successMsg : String → Effect
deriving Repr, DecidableEq

/-- Whether an effect is an `st.error` display. -/
def Effect.isError : Effect → Bool
  | .errorMsg _ => true
  | _ => false

/-- The four Streamlit secrets, each possibly missing. -/
structure Secrets where
  github_token : Option String
  github_user : Option String
  github_repo : Option String
  github_file_path : Option String

/-- The configured API endpoint and request headers (source lines 36-40). -/
structure GithubConfig where
  api_url : String
  headers : List (String × String)
deriving Repr

/-- The secrets block (source lines 27-45): accessing a missing secret
raises `KeyError`, caught to leave the app unconfigured; otherwise the
URL and headers are built.  No network request occurs here. -/
def configureGithub (s : Secrets) : Option GithubConfig :=
  match s.github_token, s.github_user, s.github_repo, s.github_file_path with
  | some tok, some user, some repo, some path =>
    some { api_url := "https://api.github.com/repos/" ++ user ++ "/" ++ repo ++ "/contents/" ++ path,
           headers := [("Authorization", "token " ++ tok),
                       ("Accept", "application/vnd.github.v3+json")] }
  | _, _, _, _ => none

/-- Classification of the `content` field of a GET response after
base64 and UTF-8 decoding (source line 62). -/
inductive FileContent where
  | text : Json → FileContent
  | emptyText : FileContent
  | badJson : String → FileContent
  | badEncoding : FileContent

/-- The JSON body of a successful `GET /contents/{path}`: the fields the
source reads, each `none` when the key is missing (a `KeyError`). -/
structure ContentsBody where
  content : Option FileContent
  sha : Option String

/-- The outcome of the GET round trip as observed by
`carregar_dados_github`:
`ok` = 2xx with a parseable JSON body; `httpError` = `raise_for_status`
raised `HTTPError` with that status and exception text; `netError` = a
non-HTTP exception from `requests.get`; `badBody` = 2xx but `req.json()`
raised. -/
inductive LoadResponse where
  | ok : ContentsBody → LoadResponse
  | httpError : Nat → String → LoadResponse
  | netError : String → LoadResponse
  | badBody : String → LoadResponse

def configMissingLoadMsg : String :=
  "Configuração da API do GitHub não encontrada."

def configMissingSaveMsg : String :=
  "Configuração da API do GitHub não encontrada. Não é possível salvar."

def notFoundWarningMsg : String :=
  "Arquivo de dados não encontrado no GitHub. Um novo será criado ao salvar."

/-- Text of `f"Erro HTTP ao carregar dados do GitHub: {err}"`; the
`HTTPError` text carries the status and detail. -/
def loadHttpErrorMsg (status : Nat) (detail : String) : String :=
  "Erro HTTP ao carregar dados do GitHub: " ++ toString status ++ " " ++ detail

/-- Text of `f"Erro inesperado ao carregar dados: {e}"`. -/
def loadUnexpectedMsg (detail : String) : String :=
  "Erro inesperado ao carregar dados: " ++ detail

/-- Text of `f"Erro ao salvar dados no GitHub: {e}"`. -/
def saveErrorMsg (detail : String) : String :=
  "Erro ao salvar dados no GitHub: " ++ detail

def saveSuccessMsg : String :=
  "Dados salvos com sucesso no GitHub!"

/-- Detail text for the `KeyError` on the content field of the GET body. -/
def keyErrorContentDetail : String := "KeyError: content"

/-- Detail text for the `KeyError` on the sha field of the GET body. -/
def keyErrorShaDetail : String := "KeyError: sha"

/-- Detail text for a `binascii.Error` or `UnicodeDecodeError` while
decoding the base64 content. -/
def badEncodingDetail : String := "binascii.Error: invalid base64 content"

/-- Detail text for a `json.JSONDecodeError` in `json.loads(content)`. -/
def jsonDecodeDetail : String := "json.decoder.JSONDecodeError"

/-- Detail text for a `ValueError` in `pd.DataFrame(...)`. -/
def dfConstructDetail : String := "ValueError: DataFrame constructor not properly called"

/-- Detail text for the `KeyError` on the sha of the PUT response
body. -/
def respShaKeyErrorDetail : String := "KeyError: sha"

/-- Result of one call to `carregar_dados_github`: the returned
DataFrame, the value of `st.session_state.github_sha` after the call,
and the displayed messages. -/
structure LoadResult where
  df : DataFrame
  sha : Option String
  effects : List Effect
deriving Repr

/-- Model of carregar_dados_github (source lines 51-81).  `cfg` is the pair
of globals `API_URL`/`HEADERS` (`none` when unset), `prevSha` is
`st.session_state.github_sha` before the call, `resp` the observed GET
outcome.  Mirrors the source control flow: the sha is stored (line 63)
after the content field is read and decoded (line 62) but before the
empty-content check (line 65) and `json.loads`/`pd.DataFrame`
(line 68); `HTTPError` with status 404 clears the sha and warns; every
other exception path reports an error and returns the empty frame. -/
def carregar_dados_github (cfg : Option GithubConfig) (prevSha : Option String)
    (resp : LoadResponse) : LoadResult :=
  match cfg with
  | none => { df := get_empty_df, sha := prevSha, effects := [.errorMsg configMissingLoadMsg] }
  | some _ =>
    match resp with
    | .netError d =>
      { df := get_empty_df, sha := prevSha, effects := [.errorMsg (loadUnexpectedMsg d)] }
    | .badBody d =>
      { df := get_empty_df, sha := prevSha, effects := [.errorMsg (loadUnexpectedMsg d)] }
    | .httpError status d =>
      if status = 404 then
        { df := get_empty_df, sha := none, effects := [.warningMsg notFoundWarningMsg] }
      else
        { df := get_empty_df, sha := prevSha, effects := [.errorMsg (loadHttpErrorMsg status d)] }
    | .ok body =>
      match body.content, body.sha with
      | none, _ =>
        { df := get_empty_df, sha := prevSha,
          effects := [.errorMsg (loadUnexpectedMsg keyErrorContentDetail)] }
      | some .badEncoding, _ =>
        { df := get_empty_df, sha := prevSha,
          effects := [.errorMsg (loadUnexpectedMsg badEncodingDetail)] }
      | some _, none =>
        { df := get_empty_df, sha := prevSha,
          effects := [.errorMsg (loadUnexpectedMsg keyErrorShaDetail)] }
      | some .emptyText, some s =>
        { df := get_empty_df, sha := some s, effects := [] }
      | some (.badJson _), some s =>
        { df := get_empty_df, sha := some s,
          effects := [.errorMsg (loadUnexpectedMsg jsonDecodeDetail)] }
      | some (.text v), some s =>
        match dfFromJson v with
        | none =>
          { df := get_empty_df, sha := some s,
            effects := [.errorMsg (loadUnexpectedMsg dfConstructDetail)] }
        | some df => { df := df, sha := some s, effects := [] }

/-- The `committer` field of the PUT payload. -/
structure Committer where
  name : String
  email : String
deriving Repr

/-- The body of the `PUT /contents/{path}` request (source lines 93-100);
`content` is the JSON value whose text is base64-encoded into
`data_b64`, `sha` is present exactly when the payload carries one. -/
structure PutPayload where
  message : String
  content : Json
  committer : Committer
  sha : Option String
deriving Repr

/-- Python truthiness of `st.session_state.github_sha` (source line 99):
`None`, a missing key and the empty string are all falsy. -/
def shaTruthy : Option String → Bool
  | none => false
  | some s => s != ""

/-- Payload construction of `salvar_dados_github` (source lines 90-100):
the sha is attached exactly when the stored sha is truthy. -/
def savePayload (df : DataFrame) (prevSha : Option String) : PutPayload :=
  { message := "Atualização dos dados do Kanban via Streamlit",
    content := dfToJson df,
    committer := { name := "Streamlit App", email := "app@streamlit.io" },
    sha := if shaTruthy prevSha then prevSha else none }

/-- The outcome of the PUT round trip as observed by
`salvar_dados_github`, with the same reading as `LoadResponse`. -/
inductive PutResponse where
  | ok : Json → PutResponse
  | httpError : Nat → String → PutResponse
  | netError : String → PutResponse
  | badBody : String → PutResponse

/-- Extraction of the sha from the PUT response body (source line 105):
`none` when a key is missing or a non-object is indexed (the assignment
then raises before mutating the stored sha). -/
def putRespSha? (body : Json) : Option String :=
  match body.get? "content" with
  | some inner =>
    match inner.get? "sha" with
    | some (.str s) => some s
    | _ => none
  | none => none

/-- Result of one call to `salvar_dados_github`: the boolean return
value, `st.session_state.github_sha` after the call, the PUT request
issued (`none` when the unconfigured guard returned first), and the
displayed messages. -/
structure SaveResult where
  ok : Bool
  sha : Option String
  request : Option PutPayload
  effects : List Effect
deriving Repr

/-- Model of salvar_dados_github (source lines 83-111).  On the success
path the stored sha is replaced by the sha of the write response; every
exception path (HTTP error, network error, unparseable body, missing
response keys) returns `False` with the stored sha untouched. -/
def salvar_dados_github (cfg : Option GithubConfig) (df : DataFrame)
    (prevSha : Option String) (resp : PutResponse) : SaveResult :=
  match cfg with
  | none =>
    { ok := false, sha := prevSha, request := none,
      effects := [.errorMsg configMissingSaveMsg] }
  | some _ =>
    let payload := savePayload df prevSha
    match resp with
    | .netError d =>
      { ok := false, sha := prevSha, request := some payload,
        effects := [.errorMsg (saveErrorMsg d)] }
    | .badBody d =>
      { ok := false, sha := prevSha, request := some payload,
        effects := [.errorMsg (saveErrorMsg d)] }
    | .httpError status d =>
      { ok := false, sha := prevSha, request := some payload,
        effects := [.errorMsg (saveErrorMsg (toString status ++ " " ++ d))] }
    | .ok body =>
      match putRespSha? body with
      | none =>
        { ok := false, sha := prevSha, request := some payload,
          effects := [.errorMsg (saveErrorMsg respShaKeyErrorDetail)] }
      | some s =>
        { ok := true, sha := some s, request := some payload,
          effects := [.successMsg saveSuccessMsg] }

/-- Session-data initialization (source lines 130-134): load from
GitHub when configured, otherwise start from the empty frame without
any network interaction. -/
def initSessionData (cfg : Option GithubConfig) (prevSha : Option String)
    (resp : LoadResponse) : DataFrame :=
  match cfg with
  | some c => (carregar_dados_github (some c) prevSha resp).df
  | none => get_empty_df

/-- Session state after the save button handler (source lines 172-175):
`st.session_state.data` is set to the edited frame, then
`salvar_dados_github(edited_df)` runs. -/
structure ButtonState where
  data : DataFrame
  github_sha : Option String
  saved : Bool
  effects : List Effect
deriving Repr

/-- The save button handler (source lines 172-175). -/
def save_button_handler (cfg : Option GithubConfig) (edited : DataFrame)
    (prevSha : Option String) (resp : PutResponse) : ButtonState :=
  { data := edited,
    github_sha := (salvar_dados_github cfg edited prevSha resp).sha,
    saved := (salvar_dados_github cfg edited prevSha resp).ok,
    effects := (salvar_dados_github cfg edited prevSha resp).effects }

/-- A schema row of the Kanban table (spec section 3). -/
structure KanbanRow where
  tarefa : String
  inicio : Option String
  previsao : Option String
  progresso : Int
  colaboradores : List String
deriving Repr

/-- Optional date cell as stored in the JSON file. -/
def optToJson : Option String → Json
  | none => Json.null
  | some s => Json.str s

/-- The cells of a schema row in column order. -/
def rowCells (r : KanbanRow) : List Json :=
  [Json.str r.tarefa, optToJson r.inicio, optToJson r.previsao,
   Json.num r.progresso, Json.arr (r.colaboradores.map Json.str)]

/-- The record object a schema row serializes to. -/
def rowFields (r : KanbanRow) : List (String × Json) :=
  kanbanColumns.zip (rowCells r)

/-- A Table of schema rows as an in-memory DataFrame. -/
def mkDf (rows : List KanbanRow) : DataFrame :=
  { columns := kanbanColumns, rows := rows.map rowCells }

/-- Schema validity of one row: non-empty task, progress within 0-100. -/
def rowValid (r : KanbanRow) : Prop :=
  r.tarefa ≠ "" ∧ 0 ≤ r.progresso ∧ r.progresso ≤ 100

/-- Schema validity of a table. -/
def tableValid (rows : List KanbanRow) : Prop :=
  ∀ r ∈ rows, rowValid r

/-- The rows of a DataFrame as key-value records, the view under which
two frames hold the same data. -/
def dfRecords (df : DataFrame) : List (List (String × Json)) :=
  df.rows.map (fun cells => df.columns.zip cells)

/-- A fixed configured client used for concrete evaluations. -/
def cfgEx : GithubConfig :=
  { api_url := "https://api.github.com/repos/user/repo/contents/data.json",
    headers := [("Authorization", "token t"),
                ("Accept", "application/vnd.github.v3+json")] }

/-- The concrete row of the spec scenario (spec section 8). -/
def rowEx : KanbanRow :=
  { tarefa := "Design", inicio := some "2024-01-01", previsao := some "2024-01-15",
    progresso := 10, colaboradores := ["Ana"] }

/-- A PUT outcome on which `salvar_dados_github` takes an exception
path and returns `False`: any non-2xx or transport failure, or a 2xx
body from which the new sha cannot be read. -/
def isPutFailure : PutResponse → Bool
  | .ok body => (putRespSha? body).isNone
  | _ => true

/-- A concrete secrets store with the token missing. -/
def secretsEx : Secrets :=
  { github_token := none, github_user := some "user",
    github_repo := some "repo", github_file_path := some "data.json" }

/-- A concrete successful PUT response body carrying sha `def456`. -/
def putBodyEx : Json :=
  Json.obj [("content", Json.obj [("sha", Json.str "def456")])]

/-! ## Serialization helper lemmas -/

/-- The keys of a serialized schema row are exactly the Kanban columns. -/
theorem rowFields_fst (r : KanbanRow) : (rowFields r).map Prod.fst = kanbanColumns := rfl

/-- Reading every Kanban column back out of a serialized schema row
recovers the original cells. -/
theorem lookup_rowFields (r : KanbanRow) :
    kanbanColumns.map (fun c => (lookupField (rowFields r) c).getD Json.null) = rowCells r := rfl

/-- The object check succeeds on a list of JSON objects and returns
their field lists. -/
theorem allObjs_map_obj (ls : List (List (String × Json))) :
    allObjs? (ls.map Json.obj) = some ls := by
  induction ls with
  | nil => rfl
  | cons o t ih => simp [allObjs?, Json.asObj?, ih]

/-- Folding the column union over records that all carry the Kanban
keys leaves the Kanban columns unchanged. -/
theorem colfold_kanban (os : List (List (String × Json)))
    (h : ∀ o ∈ os, o.map Prod.fst = kanbanColumns) :
    os.foldl (fun acc o => unionCols acc (o.map Prod.fst)) kanbanColumns = kanbanColumns := by
  induction os with
  | nil => rfl
  | cons o t ih =>
    rw [List.foldl_cons, h o (List.mem_cons_self o t),
      show unionCols kanbanColumns kanbanColumns = kanbanColumns from by decide]
    exact ih (fun x hx => h x (List.mem_cons_of_mem o hx))

/-- Serializing a table of schema rows yields the array of its row
records. -/
theorem dfToJson_mkDf (rows : List KanbanRow) :
    dfToJson (mkDf rows) = Json.arr ((rows.map rowFields).map Json.obj) := by
  simp [dfToJson, mkDf, rowFields, List.map_map, Function.comp]

/-- Decoding the serialized form of a non-empty table of schema rows
recovers the table exactly. -/
theorem dfFromJson_mkDf_cons (r : KanbanRow) (t : List KanbanRow) :
    dfFromJson (dfToJson (mkDf (r :: t))) = some (mkDf (r :: t)) := by
  rw [dfToJson_mkDf]
  have hobjs := allObjs_map_obj ((r :: t).map rowFields)
  have hkeys : ∀ o ∈ (r :: t).map rowFields, o.map Prod.fst = kanbanColumns := by
    intro o ho
    rcases List.mem_map.mp ho with ⟨x, _, hx⟩
    exact hx ▸ rowFields_fst x
  simp only [dfFromJson, hobjs]
  have hcols : ((r :: t).map rowFields).foldl
      (fun acc o => unionCols acc (o.map Prod.fst)) [] = kanbanColumns := by
    rw [List.map_cons, List.foldl_cons, rowFields_fst r,
      show unionCols [] kanbanColumns = kanbanColumns from by decide]
    exact colfold_kanban _ (fun x hx => hkeys x (List.mem_cons_of_mem _ hx))
  rw [hcols]
  congr 1
  simp only [mkDf, DataFrame.mk.injEq, true_and]
  rw [List.map_map]
  apply List.map_congr_left
  intro x _
  exact lookup_rowFields x

/-! ## Claim theorems -/

/-- C2: for every Table whose rows satisfy the schema (task non-empty,
progress in 0-100), saving the table (the PUT payload content built by
`salvar_dados_github`) and then loading that stored content again
reproduces the rows and field values of the original Table exactly, with
order preserved and no field coercion loss. -/
theorem save_load_roundtrip (cfg : GithubConfig) (loadPrev savePrev : Option String)
    (s : String) (rows : List KanbanRow) (hv : tableValid rows) :
    dfRecords (carregar_dados_github (some cfg) loadPrev
      (.ok ⟨some (.text (savePayload (mkDf rows) savePrev).content), some s⟩)).df
      = dfRecords (mkDf rows) := by
  cases rows with
  | nil => rfl
  | cons r t =>
    have hdf := dfFromJson_mkDf_cons r t
    have hc : (savePayload (mkDf (r :: t)) savePrev).content = dfToJson (mkDf (r :: t)) := rfl
    simp only [carregar_dados_github, hc, hdf]

/-- C2 witness: the spec scenario row round-trips. -/
theorem save_load_roundtrip_witness :
    dfRecords (carregar_dados_github (some cfgEx) none
      (.ok ⟨some (.text (savePayload (mkDf [rowEx]) none).content), some "abc123"⟩)).df
      = dfRecords (mkDf [rowEx]) :=
  save_load_roundtrip cfgEx none none "abc123" [rowEx]
    (by intro r hr; rw [List.mem_singleton] at hr; subst hr; exact ⟨by decide, by decide, by decide⟩)

/-- C3: a not-found load returns the empty Table with the fixed schema,
clears the stored revision marker (so the next save sends no marker and
creates), and emits only a warning, not an error. -/
theorem load_not_found_first_run (cfg : GithubConfig) (prevSha : Option String)
    (d : String) (df : DataFrame) :
    carregar_dados_github (some cfg) prevSha (.httpError 404 d) =
      { df := get_empty_df, sha := none, effects := [.warningMsg notFoundWarningMsg] } ∧
    get_empty_df.columns = kanbanColumns ∧
    (savePayload df (carregar_dados_github (some cfg) prevSha (.httpError 404 d)).sha).sha
      = none :=
  ⟨rfl, rfl, rfl⟩

/-- C8: on an HTTP failure other than not-found, and on a transport
failure, the load reports the condition as a displayed error carrying
the status and detail, leaves the stored revision marker unchanged, and
still returns (the empty frame) rather than crashing. -/
theorem load_http_failure_reports_error (cfg : GithubConfig) (prevSha : Option String)
    (status : Nat) (d : String) (h : status ≠ 404) :
    carregar_dados_github (some cfg) prevSha (.httpError status d) =
      { df := get_empty_df, sha := prevSha,
        effects := [.errorMsg (loadHttpErrorMsg status d)] } ∧
    carregar_dados_github (some cfg) prevSha (.netError d) =
      { df := get_empty_df, sha := prevSha,
        effects := [.errorMsg (loadUnexpectedMsg d)] } := by
  exact ⟨by simp [carregar_dados_github, h], rfl⟩

/-- C8 witness: a 500 response. -/
theorem load_http_failure_reports_error_witness :
    carregar_dados_github (some cfgEx) (some "oldsha") (.httpError 500 "Server Error") =
      { df := get_empty_df, sha := some "oldsha",
        effects := [.errorMsg (loadHttpErrorMsg 500 "Server Error")] } ∧
    carregar_dados_github (some cfgEx) (some "oldsha") (.netError "Server Error") =
      { df := get_empty_df, sha := some "oldsha",
        effects := [.errorMsg (loadUnexpectedMsg "Server Error")] } :=
  load_http_failure_reports_error cfgEx (some "oldsha") 500 "Server Error" (by decide)

/-- Every branch of `carregar_dados_github` either returns the empty
frame or displays nothing. -/
theorem carregar_df_or_silent (cfg : Option GithubConfig) (prevSha : Option String)
    (resp : LoadResponse) :
    (carregar_dados_github cfg prevSha resp).df = get_empty_df ∨
    (carregar_dados_github cfg prevSha resp).effects = [] := by
  cases cfg with
  | none => exact Or.inl rfl
  | some c =>
    cases resp with
    | netError d => exact Or.inl rfl
    | badBody d => exact Or.inl rfl
    | httpError status d =>
      refine Or.inl ?_
      by_cases h : status = 404 <;> simp [carregar_dados_github, h]
    | ok body =>
      obtain ⟨content, sha⟩ := body
      cases content with
      | none => exact Or.inl rfl
      | some fc =>
        cases sha with
        | none => cases fc <;> exact Or.inl rfl
        | some s =>
          cases fc with
          | emptyText => exact Or.inl rfl
          | badJson raw => exact Or.inl rfl
          | badEncoding => exact Or.inl rfl
          | text v =>
            rcases hdf : dfFromJson v with _ | df
            · exact Or.inl (by simp [carregar_dados_github, hdf])
            · exact Or.inr (by simp [carregar_dados_github, hdf])

/-- C9: the load is total at its interface — it returns a frame for
every response — and whenever it displayed an error its returned frame
is the empty Table, so at the return value alone a failed load is
indistinguishable from loading a genuinely empty file. -/
theorem load_failure_indistinguishable (cfg : Option GithubConfig)
    (prevSha : Option String) (resp : LoadResponse) (s : String)
    (h : (carregar_dados_github cfg prevSha resp).effects.any Effect.isError = true) :
    (carregar_dados_github cfg prevSha resp).df = get_empty_df ∧
    (carregar_dados_github cfg prevSha (.ok ⟨some .emptyText, some s⟩)).df = get_empty_df ∧
    (carregar_dados_github cfg prevSha resp).df
      = (carregar_dados_github cfg prevSha (.ok ⟨some .emptyText, some s⟩)).df := by
  have hempty : (carregar_dados_github cfg prevSha (.ok ⟨some .emptyText, some s⟩)).df
      = get_empty_df := by
    cases cfg <;> rfl
  rcases carregar_df_or_silent cfg prevSha resp with h1 | h1
  · exact ⟨h1, hempty, h1.trans hempty.symm⟩
  · rw [h1] at h
    simp [List.any] at h

/-- C9 witness: a network failure during load. -/
theorem load_failure_indistinguishable_witness :
    (carregar_dados_github (some cfgEx) none (.netError "connection refused")).df
      = get_empty_df ∧
    (carregar_dados_github (some cfgEx) none (.ok ⟨some .emptyText, some "abc"⟩)).df
      = get_empty_df ∧
    (carregar_dados_github (some cfgEx) none (.netError "connection refused")).df
      = (carregar_dados_github (some cfgEx) none (.ok ⟨some .emptyText, some "abc"⟩)).df :=
  load_failure_indistinguishable (some cfgEx) none (.netError "connection refused") "abc" rfl

/-- C1 counterexample: with the stored revision marker present but equal
to the empty string, the save goes through (here the remote accepts it),
yet the write request carries no marker, so the write is issued as a
create even though a marker is present. -/
theorem save_marker_empty_string_counterexample :
    (some "" : Option String) ≠ none ∧
    (salvar_dados_github (some cfgEx) get_empty_df (some "") (.ok putBodyEx)).request
      = some (savePayload get_empty_df (some "")) ∧
    (savePayload get_empty_df (some "")).sha = none :=
  ⟨by decide, rfl, rfl⟩

/-- C1 (amended): every save call issues the request with the payload
built from the stored marker; the payload includes the marker exactly
when it is present AND non-empty (Python truthiness), and carries no
marker — a create — when it is absent or empty. -/
theorem save_marker_truthy_included (cfg : GithubConfig) (df : DataFrame)
    (prevSha : Option String) (resp : PutResponse) :
    (salvar_dados_github (some cfg) df prevSha resp).request = some (savePayload df prevSha) ∧
    (shaTruthy prevSha = true → (savePayload df prevSha).sha = prevSha) ∧
    (shaTruthy prevSha = false → (savePayload df prevSha).sha = none) := by
  refine ⟨?_, fun h => by simp [savePayload, h], fun h => by simp [savePayload, h]⟩
  cases resp with
  | netError d => rfl
  | badBody d => rfl
  | httpError status d => rfl
  | ok body =>
    rcases hb : putRespSha? body with _ | s <;> simp [salvar_dados_github, hb]

/-- C1 witness: a non-empty stored marker is attached to the payload. -/
theorem save_marker_truthy_included_witness :
    (salvar_dados_github (some cfgEx) get_empty_df (some "abc123") (.ok putBodyEx)).request
      = some (savePayload get_empty_df (some "abc123")) ∧
    (savePayload get_empty_df (some "abc123")).sha = some "abc123" :=
  ⟨(save_marker_truthy_included cfgEx get_empty_df (some "abc123") (.ok putBodyEx)).1,
   (save_marker_truthy_included cfgEx get_empty_df (some "abc123") (.ok putBodyEx)).2.1 rfl⟩

/-- C4 counterexample: a file that exists with empty content but whose
response sha is the empty string populates the marker from the
response, yet a subsequent save attaches no marker — it issues a
create, not an update. -/
theorem load_empty_content_empty_sha_counterexample :
    (carregar_dados_github (some cfgEx) none (.ok ⟨some .emptyText, some ""⟩)).sha = some "" ∧
    (carregar_dados_github (some cfgEx) none (.ok ⟨some .emptyText, some ""⟩)).sha ≠ none ∧
    (savePayload get_empty_df
      (carregar_dados_github (some cfgEx) none (.ok ⟨some .emptyText, some ""⟩)).sha).sha
      = none :=
  ⟨rfl, by decide, rfl⟩

/-- C4 (amended): when the file exists with empty decoded content, the
load returns the empty Table with the revision marker populated from
the response — distinct from the not-found case, which clears it — and
when that marker is non-empty a subsequent save attaches it, issuing an
update rather than a create. -/
theorem load_empty_content_marker_populated (cfg : GithubConfig) (prevSha : Option String)
    (s : String) (d : String) :
    carregar_dados_github (some cfg) prevSha (.ok ⟨some .emptyText, some s⟩) =
      { df := get_empty_df, sha := some s, effects := [] } ∧
    (carregar_dados_github (some cfg) prevSha (.httpError 404 d)).sha = none ∧
    (s ≠ "" → ∀ df : DataFrame, (savePayload df (some s)).sha = some s) := by
  refine ⟨rfl, rfl, fun hs df => ?_⟩
  simp [savePayload, shaTruthy, hs]

/-- C4 witness: empty content with a real sha. -/
theorem load_empty_content_marker_populated_witness :
    carregar_dados_github (some cfgEx) none (.ok ⟨some .emptyText, some "abc123"⟩) =
      { df := get_empty_df, sha := some "abc123", effects := [] } ∧
    (savePayload get_empty_df (some "abc123")).sha = some "abc123" :=
  ⟨(load_empty_content_marker_populated cfgEx none "abc123" "nf").1,
   (load_empty_content_marker_populated cfgEx none "abc123" "nf").2.2 (by decide) get_empty_df⟩

/-- C5: a successful save returns `True`, replaces the stored revision
marker by the sha taken from the write response (so the next save can
attach it), and reports success. -/
theorem save_success_new_marker (cfg : GithubConfig) (df : DataFrame)
    (prevSha : Option String) (body : Json) (s : String)
    (h : putRespSha? body = some s) :
    salvar_dados_github (some cfg) df prevSha (.ok body) =
      { ok := true, sha := some s, request := some (savePayload df prevSha),
        effects := [.successMsg saveSuccessMsg] } := by
  simp [salvar_dados_github, h]

/-- C5 witness: the concrete write response of the spec scenario. -/
theorem save_success_new_marker_witness :
    salvar_dados_github (some cfgEx) (mkDf [rowEx]) (some "abc123") (.ok putBodyEx) =
      { ok := true, sha := some "def456",
        request := some (savePayload (mkDf [rowEx]) (some "abc123")),
        effects := [.successMsg saveSuccessMsg] } :=
  save_success_new_marker cfgEx (mkDf [rowEx]) (some "abc123") putBodyEx "def456" rfl

/-- C6: on every save failure the call returns `False`, displays an
error, and the session keeps the edited table and the previous revision
marker, so the edits of the user are preserved and a retry is
possible. -/
theorem save_failure_preserves_table (cfg : GithubConfig) (edited : DataFrame)
    (prevSha : Option String) (resp : PutResponse)
    (h : isPutFailure resp = true) :
    (salvar_dados_github (some cfg) edited prevSha resp).ok = false ∧
    (save_button_handler (some cfg) edited prevSha resp).data = edited ∧
    (save_button_handler (some cfg) edited prevSha resp).github_sha = prevSha ∧
    (salvar_dados_github (some cfg) edited prevSha resp).effects.any Effect.isError
      = true := by
  cases resp with
  | netError d => exact ⟨rfl, rfl, rfl, rfl⟩
  | badBody d => exact ⟨rfl, rfl, rfl, rfl⟩
  | httpError status d => exact ⟨rfl, rfl, rfl, rfl⟩
  | ok body =>
    rcases hb : putRespSha? body with _ | s
    · refine ⟨?_, rfl, ?_, ?_⟩ <;>
        simp [salvar_dados_github, save_button_handler, hb, Effect.isError]
    · rw [isPutFailure, hb] at h
      simp at h

/-- C6 witness: a conflict (HTTP 409) on the write. -/
theorem save_failure_preserves_table_witness :
    (salvar_dados_github (some cfgEx) (mkDf [rowEx]) (some "abc123")
      (.httpError 409 "Conflict")).ok = false ∧
    (save_button_handler (some cfgEx) (mkDf [rowEx]) (some "abc123")
      (.httpError 409 "Conflict")).data = mkDf [rowEx] ∧
    (save_button_handler (some cfgEx) (mkDf [rowEx]) (some "abc123")
      (.httpError 409 "Conflict")).github_sha = some "abc123" ∧
    (salvar_dados_github (some cfgEx) (mkDf [rowEx]) (some "abc123")
      (.httpError 409 "Conflict")).effects.any Effect.isError = true :=
  save_failure_preserves_table cfgEx (mkDf [rowEx]) (some "abc123")
    (.httpError 409 "Conflict") rfl

/-- C7: if any of the four secrets is missing, configuration yields the
unconfigured state without aborting, and the session initializes with
the empty Table regardless of any remote response — no network call is
consulted. -/
theorem config_missing_degrades_offline (s : Secrets)
    (h : s.github_token = none ∨ s.github_user = none ∨ s.github_repo = none ∨
      s.github_file_path = none) :
    configureGithub s = none ∧
    ∀ (prevSha : Option String) (resp : LoadResponse),
      initSessionData (configureGithub s) prevSha resp = get_empty_df := by
  obtain ⟨t, u, r, p⟩ := s
  have hc : configureGithub ⟨t, u, r, p⟩ = none := by
    rcases t with _ | t <;> rcases u with _ | u <;> rcases r with _ | r <;>
      rcases p with _ | p <;> first | rfl | simp_all
  exact ⟨hc, fun prevSha resp => by rw [hc]; rfl⟩

/-- C7 witness: the token is missing. -/
theorem config_missing_degrades_offline_witness :
    configureGithub secretsEx = none ∧
    initSessionData (configureGithub secretsEx) none (.netError "offline") = get_empty_df :=
  ⟨(config_missing_degrades_offline secretsEx (Or.inl rfl)).1,
   (config_missing_degrades_offline secretsEx (Or.inl rfl)).2 none (.netError "offline")⟩

/-- C10 counterexample: a fetch that succeeds and yields a sha but whose
content fails JSON parsing is a load failure other than not-found — an
error is displayed and the empty frame returned — yet the stored
revision marker has already been overwritten with the fetched sha. -/
theorem sha_frame_counterexample :
    (carregar_dados_github (some cfgEx) (some "oldsha")
      (.ok ⟨some (.badJson "notjson"), some "newsha"⟩)).effects.any Effect.isError = true ∧
    (carregar_dados_github (some cfgEx) (some "oldsha")
      (.ok ⟨some (.badJson "notjson"), some "newsha"⟩)).sha = some "newsha" ∧
    (carregar_dados_github (some cfgEx) (some "oldsha")
      (.ok ⟨some (.badJson "notjson"), some "newsha"⟩)).sha ≠ some "oldsha" :=
  ⟨rfl, rfl, by decide⟩

/-- C10 (amended): the stored revision marker is unchanged on transport
failures, non-404 HTTP failures, unparseable response bodies, and on
responses whose content or sha field cannot be extracted, and on every
save failure; but once a successful fetch yields a decodable content
and a sha, the marker is overwritten with the fetched sha even when the
subsequent JSON parsing or frame construction fails. -/
theorem sha_frame_effects (cfg : GithubConfig) (prevSha : Option String)
    (status : Nat) (d : String) (fc : FileContent) (s : String) (sh : Option String)
    (df : DataFrame) (resp : PutResponse)
    (hst : status ≠ 404) (hput : isPutFailure resp = true) (hfc : fc ≠ .badEncoding) :
    (carregar_dados_github (some cfg) prevSha (.httpError status d)).sha = prevSha ∧
    (carregar_dados_github (some cfg) prevSha (.netError d)).sha = prevSha ∧
    (carregar_dados_github (some cfg) prevSha (.badBody d)).sha = prevSha ∧
    (carregar_dados_github (some cfg) prevSha (.ok ⟨none, sh⟩)).sha = prevSha ∧
    (carregar_dados_github (some cfg) prevSha (.ok ⟨some .badEncoding, sh⟩)).sha = prevSha ∧
    (carregar_dados_github (some cfg) prevSha (.ok ⟨some fc, none⟩)).sha = prevSha ∧
    (carregar_dados_github (some cfg) prevSha (.ok ⟨some fc, some s⟩)).sha = some s ∧
    (salvar_dados_github (some cfg) df prevSha resp).sha = prevSha := by
  refine ⟨by simp [carregar_dados_github, hst], rfl, rfl, by cases sh <;> rfl,
    by cases sh <;> rfl, ?_, ?_, ?_⟩
  · cases fc <;> rfl
  · cases fc with
    | emptyText => rfl
    | badJson raw => rfl
    | badEncoding => exact absurd rfl hfc
    | text v => rcases hdf : dfFromJson v with _ | dfv <;> simp [carregar_dados_github, hdf]
  · cases resp with
    | netError e => rfl
    | badBody e => rfl
    | httpError st e => rfl
    | ok body =>
      rcases hb : putRespSha? body with _ | sh2
      · simp [salvar_dados_github, hb]
      · rw [isPutFailure, hb] at hput
        simp at hput

/-- C10 witness: concrete instances of each frame condition. -/
theorem sha_frame_effects_witness :
    (carregar_dados_github (some cfgEx) (some "oldsha") (.httpError 500 "err")).sha
      = some "oldsha" ∧
    (carregar_dados_github (some cfgEx) (some "oldsha") (.netError "err")).sha
      = some "oldsha" ∧
    (carregar_dados_github (some cfgEx) (some "oldsha") (.badBody "err")).sha
      = some "oldsha" ∧
    (carregar_dados_github (some cfgEx) (some "oldsha") (.ok ⟨none, some "n"⟩)).sha
      = some "oldsha" ∧
    (carregar_dados_github (some cfgEx) (some "oldsha")
      (.ok ⟨some .badEncoding, some "n"⟩)).sha = some "oldsha" ∧
    (carregar_dados_github (some cfgEx) (some "oldsha")
      (.ok ⟨some .emptyText, none⟩)).sha = some "oldsha" ∧
    (carregar_dados_github (some cfgEx) (some "oldsha")
      (.ok ⟨some .emptyText, some "newsha"⟩)).sha = some "newsha" ∧
    (salvar_dados_github (some cfgEx) get_empty_df (some "oldsha")
      (.netError "err")).sha = some "oldsha" :=
  sha_frame_effects cfgEx (some "oldsha") 500 "err" .emptyText "newsha" (some "n")
    get_empty_df (.netError "err") (by decide) rfl (fun hh => FileContent.noConfusion hh)
